import Mathlib

/-!
# Verification of the resilient client session and realtime channel

Shallow embedding of the two services of the Employee-Attendance-App mobile
client that implement the session core:

* `mobile_app/src/services/ApiService.ts` — the axios response interceptor
  that coordinates token refresh (single-flight via `isRefreshing` and
  `failedQueue`), and `logout`.
* `mobile_app/src/services/WebSocketService.ts` — the realtime channel:
  `connect`, `handleMessage`, `handleReconnect`, heartbeat, `sendMessage`.

Pure data is modelled directly; the JavaScript event loop is modelled by
explicit sequential state passing (handlers run atomically between `await`
points, so the arrival order of concurrent callers determines a unique
interleaving).
-/

namespace EmployeeAttendance

/-! ## ApiService: credential storage

`AsyncStorage` keys used by ApiService: `auth_token` (TOKEN_KEY),
`refresh_token` (REFRESH_TOKEN_KEY), `user_data` (USER_DATA_KEY).  The store
is modelled as one record with an optional value per key. -/

structure Storage where
  authToken : Option String
  refreshToken : Option String
  userData : Option String
deriving DecidableEq

/-- The three AsyncStorage keys ApiService uses (string constants
`TOKEN_KEY = "auth_token"`, `REFRESH_TOKEN_KEY = "refresh_token"`,
`USER_DATA_KEY = "user_data"` in the source). -/
inductive StorageKey
  | auth_token
  | refresh_token
  | user_data
deriving DecidableEq

/-- Removal of a single key, the effect `AsyncStorage.removeItem` would have. -/
def removeKey (st : Storage) : StorageKey → Storage
  | StorageKey.auth_token => { st with authToken := none }
  | StorageKey.refresh_token => { st with refreshToken := none }
  | StorageKey.user_data => { st with userData := none }

/-! ## ApiService: the response interceptor (token refresh coordinator)

Mutable coordinator state of the `ApiService` class: `isRefreshing` and
`failedQueue` (the queued resolve/reject pairs, identified here by caller id). -/

structure ApiState where
  isRefreshing : Bool
  failedQueue : List Nat
deriving DecidableEq

/-- Errors a caller's promise can be rejected with.  `httpError` is the
original axios error (carrying the HTTP status) passed through by
`Promise.reject(error)`; `refreshFailed` is the error of the failed refresh
call; `sessionExpired` is the spec's `SessionExpired` error — it appears in
this taxonomy so the spec's claim can be stated, but no code path of
`ApiService.ts` constructs it. -/
inductive PipelineError
  | httpError (status : Nat)
  | refreshFailed
  | sessionExpired
deriving DecidableEq

/-- The decision taken by the response interceptor's error handler for one
errored request. -/
inductive InterceptDecision
  | reject (e : PipelineError)
  | enqueue
  | startRefresh
deriving DecidableEq

/-- The synchronous part of the response interceptor's error handler
(`ApiService.setupInterceptors`, response error branch), run atomically from
entry up to the first `await`:

```
if (error.response?.status === 401 && !originalRequest._retry) {
  if (this.isRefreshing) {
    return new Promise((resolve, reject) => {
      this.failedQueue.push({ resolve, reject });
    }).then(...).catch(...);
  }
  originalRequest._retry = true;
  this.isRefreshing = true;
  ... (refresh)
}
return Promise.reject(error);
```

`status` is the HTTP status of the failed response, `retried` the value of
`originalRequest._retry`, `callerId` identifies the caller for queue
bookkeeping. -/
def interceptError (status : Nat) (retried : Bool) (callerId : Nat)
    (st : ApiState) : ApiState × InterceptDecision :=
  if status = 401 ∧ retried = false then
    if st.isRefreshing then
      ({ st with failedQueue := st.failedQueue ++ [callerId] },
        InterceptDecision.enqueue)
    else
      ({ st with isRefreshing := true }, InterceptDecision.startRefresh)
  else
    (st, InterceptDecision.reject (PipelineError.httpError status))

/-- Outcome one caller of the pipeline observes once the cycle settles. -/
inductive CallerOutcome
  | retried
  | rejectedRefreshError
  | rejectedOriginal
  | pending
deriving DecidableEq

/-- `ApiService.processQueue(error)`: every queued waiter is settled with the
one shared argument — rejected with the refresh error when `failed`, resolved
otherwise (a resolved waiter continues with `this.api(originalRequest)`, i.e.
its request is retried) — and the queue is cleared. -/
def processQueue (failed : Bool) (st : ApiState) :
    ApiState × List (Nat × CallerOutcome) :=
  ({ st with failedQueue := [] },
    st.failedQueue.map (fun c =>
      (c, if failed then CallerOutcome.rejectedRefreshError
          else CallerOutcome.retried)))

/-- Result of the external `POST /auth/token/refresh/` call. -/
inductive RefreshResult
  | success (newAccess : String)
  | failure
deriving DecidableEq

/-- Aggregate result of the refresh initiator settling its refresh. -/
structure SettleResult where
  api : ApiState
  storage : Storage
  refreshCalls : Nat
  queueOutcomes : List (Nat × CallerOutcome)
  initiatorOutcome : CallerOutcome
  loggedOut : Bool
deriving DecidableEq

/-- The `try { ... } catch { ... } finally { ... }` block run by the caller
that took the `startRefresh` branch:

* `refreshToken` absent in storage: the `if (refreshToken)` guard fails, the
  try body does nothing, `finally` clears `isRefreshing`, and control falls
  through to `return Promise.reject(error)` — the refresh endpoint is never
  called and `failedQueue` is left unprocessed (its waiters never settle).
* `refreshToken` present and the refresh call succeeds: the new access token
  is stored, `processQueue(null)` resolves every waiter, and the initiator
  retries its original request.
* `refreshToken` present and the refresh call fails: `processQueue(err)`
  rejects every waiter, `await this.logout()` clears the whole store, and the
  initiator's promise is rejected with the refresh error. -/
def settleRefresh (storage : Storage) (res : RefreshResult) (st : ApiState) :
    SettleResult :=
  match storage.refreshToken with
  | none =>
    { api := { st with isRefreshing := false }
      storage := storage
      refreshCalls := 0
      queueOutcomes := []
      initiatorOutcome := CallerOutcome.rejectedOriginal
      loggedOut := false }
  | some _ =>
    match res with
    | RefreshResult.success tok =>
      let q := processQueue false st
      { api := { q.1 with isRefreshing := false }
        storage := { storage with authToken := some tok }
        refreshCalls := 1
        queueOutcomes := q.2
        initiatorOutcome := CallerOutcome.retried
        loggedOut := false }
    | RefreshResult.failure =>
      let q := processQueue true st
      { api := { q.1 with isRefreshing := false }
        storage := ⟨none, none, none⟩
        refreshCalls := 1
        queueOutcomes := q.2
        initiatorOutcome := CallerOutcome.rejectedRefreshError
        loggedOut := true }

/-- Run the interceptor's error handler for each caller in `callers` in
arrival order (each one finds `isRefreshing` already set and is enqueued). -/
def enqueueAll (callers : List Nat) (st : ApiState) : ApiState :=
  callers.foldl (fun s c => (interceptError 401 false c s).1) st

/-- Observable result of one refresh cycle triggered by `n` concurrent 401s. -/
structure CycleResult where
  refreshCalls : Nat
  outcomes : List CallerOutcome
  storage : Storage
  loggedOut : Bool
deriving DecidableEq

/-- The caller ids `1 .. m` of the `m` callers that arrive after the
initiator. -/
def idsOf (m : Nat) : List Nat := (List.range m).map (fun i => i + 1)

/-- Coordinator state once all `n` concurrent callers' error handlers have
run up to their first suspension point, in arrival order: caller 0 found
`isRefreshing = false` and took the `startRefresh` branch; callers
`1 .. n-1` found it set and were enqueued on `failedQueue`. -/
def arrivalState (n : Nat) : ApiState :=
  enqueueAll (idsOf (n - 1)) (interceptError 401 false 0 ⟨false, []⟩).1

/-- One refresh cycle: `n` concurrent callers (ids `0 .. n-1`), none carrying
the `_retry` marker, all receive HTTP 401 while no refresh is in flight; then
the initiator's refresh settles.  A caller listed in `queueOutcomes` observes
the outcome its waiter was settled with; a queued caller whose waiter was
never settled by `processQueue` observes `pending`. -/
def refreshCycle (storage : Storage) (res : RefreshResult) (n : Nat) :
    CycleResult :=
  { refreshCalls := (settleRefresh storage res (arrivalState n)).refreshCalls
    outcomes := (settleRefresh storage res (arrivalState n)).initiatorOutcome ::
      (arrivalState n).failedQueue.map (fun c =>
        ((settleRefresh storage res (arrivalState n)).queueOutcomes.lookup
          c).getD CallerOutcome.pending)
    storage := (settleRefresh storage res (arrivalState n)).storage
    loggedOut := (settleRefresh storage res (arrivalState n)).loggedOut }

/-! ## ApiService: logout -/

/-- Outcome of the best-effort remote `POST /auth/logout/` call. -/
inductive RemoteCall
  | ok
  | fails
deriving DecidableEq

/-- One observable step of `ApiService.logout()` against its collaborators. -/
inductive LogoutStep
  | getItem (key : StorageKey)
  | post (path : String)
  | multiRemove (keys : List StorageKey)
deriving DecidableEq

/-- Effect of one logout step on the credential store.  `multiRemove` is a
single `AsyncStorage.multiRemove` call: all its keys are removed in one step,
with no intermediate state observable between them. -/
def applyStep (st : Storage) : LogoutStep → Storage
  | LogoutStep.getItem _ => st
  | LogoutStep.post _ => st
  | LogoutStep.multiRemove keys => keys.foldl removeKey st

/-- The sequence of steps `logout()` performs: read the token; if present,
call the remote logout endpoint inside `try` (its failure is caught and only
logged); in `finally`, unconditionally `AsyncStorage.multiRemove([TOKEN_KEY,
REFRESH_TOKEN_KEY, USER_DATA_KEY])`.  The step list does not depend on
`remote`: the `finally` block runs whether the remote call succeeds or
throws. -/
def logoutSteps (st : Storage) (remote : RemoteCall) : List LogoutStep :=
  LogoutStep.getItem StorageKey.auth_token ::
    (if st.authToken.isSome then [LogoutStep.post "/auth/logout/"] else []) ++
    [LogoutStep.multiRemove
      [StorageKey.auth_token, StorageKey.refresh_token, StorageKey.user_data]]

/-- `ApiService.logout()`: the storage state after all steps ran. -/
def logout (st : Storage) (remote : RemoteCall) : Storage :=
  (logoutSteps st remote).foldl applyStep st

/-- All storage states observable during `logout()` (before the first step
and after each step). -/
def logoutStates (st : Storage) (remote : RemoteCall) : List Storage :=
  List.scanl applyStep st (logoutSteps st remote)

/-! ## WebSocketService: state and operations

Fields of the `WebSocketService` class (`baseUrl` carries no behavior relevant
here and is not modelled).  The underlying `WebSocket` object is abstracted to
its `readyState`. -/

inductive ReadyState
  | CONNECTING
  | OPEN
  | CLOSING
  | CLOSED
deriving DecidableEq

structure WebSocketService where
  ws : Option ReadyState
  reconnectAttempts : Nat
  maxReconnectAttempts : Nat
  reconnectInterval : Nat
  isConnecting : Bool
  shouldReconnect : Bool
  heartbeatOn : Bool
deriving DecidableEq

/-- The initial field values of the class: `ws = null`,
`reconnectAttempts = 0`, `maxReconnectAttempts = 5`,
`reconnectInterval = 1000`, `isConnecting = false`, `shouldReconnect = true`,
`heartbeatInterval = null`. -/
def initialService : WebSocketService :=
  ⟨none, 0, 5, 1000, false, true, false⟩

/-- An inbound or outbound frame: `{ type: string, data: any }` (`data`
abstracted to a string; a frame with no data field carries `""`). -/
structure WebSocketMessage where
  type : String
  data : String
deriving DecidableEq

/-- Events the service emits through its `EventEmitter` base. -/
inductive WsEvent
  | connected
  | disconnected (code : Nat)
  | error
  | notification (data : String)
  | attendance_update (data : String)
  | leave_update (data : String)
  | shift_update (data : String)
  | payroll_update (data : String)
  | system_message (data : String)
  | message (msg : WebSocketMessage)
  | max_reconnect_attempts_reached
deriving DecidableEq

/-- Whether an event is the delivery of one of the recognized inbound
categories (`notification`, `attendance_update`, `leave_update`,
`shift_update`, `payroll_update`, `system_message`). -/
def isCategoryEvent : WsEvent → Bool
  | WsEvent.notification _ => true
  | WsEvent.attendance_update _ => true
  | WsEvent.leave_update _ => true
  | WsEvent.shift_update _ => true
  | WsEvent.payroll_update _ => true
  | WsEvent.system_message _ => true
  | _ => false

/-- The recognized inbound frame types of `handleMessage`'s switch
(`"pong"` is recognized but handled as a no-op). -/
def recognizedTypes : List String :=
  ["notification", "attendance_update", "leave_update", "shift_update",
   "payroll_update", "system_message", "pong"]

/-- Result of dispatching one inbound frame: events emitted and warnings
logged.  `handleMessage` touches no connection state. -/
structure DispatchResult where
  events : List WsEvent
  warnings : List String
deriving DecidableEq

/-- `WebSocketService.handleMessage(message)`: switch on `message.type`; each
recognized category is forwarded to its `handleX` helper, which logs and
emits the matching event; `"pong"` is a no-op (heartbeat response); anything
else logs `"Unknown message type"` and is emitted on the catch-all `message`
event. -/
def handleMessage (st : WebSocketService) (message : WebSocketMessage) :
    WebSocketService × DispatchResult :=
  if message.type = "notification" then
    (st, ⟨[WsEvent.notification message.data], []⟩)
  else if message.type = "attendance_update" then
    (st, ⟨[WsEvent.attendance_update message.data], []⟩)
  else if message.type = "leave_update" then
    (st, ⟨[WsEvent.leave_update message.data], []⟩)
  else if message.type = "shift_update" then
    (st, ⟨[WsEvent.shift_update message.data], []⟩)
  else if message.type = "payroll_update" then
    (st, ⟨[WsEvent.payroll_update message.data], []⟩)
  else if message.type = "system_message" then
    (st, ⟨[WsEvent.system_message message.data], []⟩)
  else if message.type = "pong" then
    (st, ⟨[], []⟩)
  else
    (st, ⟨[WsEvent.message message], ["Unknown message type"]⟩)

/-- Result of `handleReconnect`: the new state, the delay (ms) of the
scheduled `setTimeout(connect, delay)` if one was scheduled, and the events
emitted. -/
structure ReconnectResult where
  st : WebSocketService
  scheduledDelay : Option Nat
  events : List WsEvent
deriving DecidableEq

/-- `WebSocketService.handleReconnect()`:

```
if (this.reconnectAttempts >= this.maxReconnectAttempts) {
  this.emit('max_reconnect_attempts_reached'); return;
}
this.reconnectAttempts++;
const delay = this.reconnectInterval * Math.pow(2, this.reconnectAttempts - 1);
setTimeout(() => { if (this.shouldReconnect) this.connect(); }, delay);
``` -/
def handleReconnect (st : WebSocketService) : ReconnectResult :=
  if st.reconnectAttempts ≥ st.maxReconnectAttempts then
    ⟨st, none, [WsEvent.max_reconnect_attempts_reached]⟩
  else
    ⟨{ st with reconnectAttempts := st.reconnectAttempts + 1 },
      some (st.reconnectInterval * 2 ^ (st.reconnectAttempts + 1 - 1)), []⟩

/-- Result of `sendMessage` (and of one heartbeat tick, which only sends). -/
structure SendResult where
  st : WebSocketService
  sent : Option WebSocketMessage
  warnings : List String
deriving DecidableEq

/-- `WebSocketService.sendMessage(message)`: send iff the socket exists and is
`OPEN`; otherwise log a warning and do nothing. -/
def sendMessage (st : WebSocketService) (message : WebSocketMessage) :
    SendResult :=
  if st.ws = some ReadyState.OPEN then
    ⟨st, some message, []⟩
  else
    ⟨st, none, ["WebSocket is not connected, cannot send message"]⟩

/-- One firing of the `setInterval` callback installed by `startHeartbeat`
(every 30000 ms): if the socket is `OPEN`, `sendMessage({ type: 'ping' })`;
otherwise nothing.  The callback reads no pong bookkeeping (the class keeps
none) and can neither change connection state nor schedule a reconnect. -/
def heartbeatTick (st : WebSocketService) : SendResult :=
  if st.ws = some ReadyState.OPEN then
    sendMessage st ⟨"ping", ""⟩
  else
    ⟨st, none, []⟩

/-- `n` heartbeat intervals during which no pong and no transport
close/error event arrives. -/
def runTicks : WebSocketService → Nat → WebSocketService
  | st, 0 => st
  | st, n + 1 => runTicks (heartbeatTick st).st n

/-- Result of `connect()`: new state, whether a new `WebSocket` was
constructed, the reconnect delay scheduled (via the `catch` branch), events
emitted, warnings logged. -/
structure ConnectResult where
  st : WebSocketService
  createdConnection : Bool
  scheduledDelay : Option Nat
  events : List WsEvent
  warnings : List String
deriving DecidableEq

/-- `WebSocketService.connect()`:

```
if (this.isConnecting || (this.ws && this.ws.readyState === WebSocket.OPEN)) return;
this.isConnecting = true;
try {
  const token = await AsyncStorage.getItem('auth_token');
  if (!token) { console.warn(...); this.isConnecting = false; return; }
  this.ws = new WebSocket(wsUrl);
  this.setupEventHandlers();
} catch (error) {
  console.error(...); this.isConnecting = false; this.handleReconnect();
}
```

`token` is the stored access token; `ctorFails` is whether constructing the
`WebSocket` throws (driving the `catch` branch). -/
def connect (token : Option String) (ctorFails : Bool)
    (st : WebSocketService) : ConnectResult :=
  if st.isConnecting = true ∨ st.ws = some ReadyState.OPEN then
    ⟨st, false, none, [], []⟩
  else
    match token with
    | none =>
      ⟨{ st with isConnecting := false }, false, none, [],
        ["No auth token found, cannot connect to WebSocket"]⟩
    | some _ =>
      if ctorFails then
        let r := handleReconnect { st with isConnecting := false }
        ⟨r.st, false, r.scheduledDelay, r.events,
          ["WebSocket connection error"]⟩
      else
        ⟨{ st with isConnecting := true, ws := some ReadyState.CONNECTING },
          true, none, [], []⟩

/-! ## Message Router subscribers (Node `EventEmitter` semantics)

`WebSocketService extends EventEmitter`; subscribers are registered with
`on(category, callback)` and frames delivered with `emit(category, data)`.
A callback is abstracted by its behavior on the frame being delivered. -/

inductive CallbackBehavior
  | returns
  | throws
deriving DecidableEq

/-- Node's `EventEmitter.emit` with synchronous listeners: callbacks are
invoked one by one in registration order; an exception thrown by a callback
propagates out of `emit` immediately, so the remaining callbacks are not
invoked.  Returns how many callbacks were invoked (a prefix of the
registration order) and whether an exception escaped. -/
def emitToListeners : List CallbackBehavior → Nat × Bool
  | [] => (0, false)
  | CallbackBehavior.throws :: _ => (1, true)
  | CallbackBehavior.returns :: rest =>
    ((emitToListeners rest).1 + 1, (emitToListeners rest).2)

/-- Delivery of a sequence of inbound frames, each given as the behavior list
of the subscribers registered for its category.  Each frame is dispatched
from `ws.onmessage`, whose `try { ... } catch` wraps `handleMessage` (and so
the emit): an exception thrown by a subscriber is caught there and logged, so
each frame's delivery is independent of exceptions thrown during earlier
frames.  Returns, per frame, how many of its subscribers were invoked. -/
def deliverFrames (frames : List (List CallbackBehavior)) : List Nat :=
  frames.map (fun subs => (emitToListeners subs).1)

/-! ## Helper lemmas -/

lemma enqueueAll_eq (l q : List Nat) :
    enqueueAll l ⟨true, q⟩ = ⟨true, q ++ l⟩ := by
  induction l generalizing q with
  | nil => simp [enqueueAll]
  | cons c t ih =>
    have hstep : (interceptError 401 false c ⟨true, q⟩).1 = ⟨true, q ++ [c]⟩ := by
      simp [interceptError]
    calc enqueueAll (c :: t) ⟨true, q⟩
        = enqueueAll t (interceptError 401 false c ⟨true, q⟩).1 := rfl
      _ = enqueueAll t ⟨true, q ++ [c]⟩ := by rw [hstep]
      _ = ⟨true, (q ++ [c]) ++ t⟩ := ih (q ++ [c])
      _ = ⟨true, q ++ c :: t⟩ := by simp

lemma lookup_map_const (o : CallerOutcome) :
    ∀ (l : List Nat) (c : Nat), c ∈ l →
      (l.map (fun x => (x, o))).lookup c = some o := by
  intro l
  induction l with
  | nil => intro c hc; exact absurd hc (List.not_mem_nil c)
  | cons a t ih =>
    intro c hc
    simp only [List.map_cons, List.lookup]
    cases hba : c == a
    case false =>
      have hct : c ∈ t := by
        rcases List.mem_cons.mp hc with h1 | h1
        · exfalso; subst h1; simp at hba
        · exact h1
      exact ih c hct
    case true => rfl

lemma map_const_replicate {α β : Type} (b : β) :
    ∀ l : List α, l.map (fun _ => b) = List.replicate l.length b := by
  intro l
  induction l with
  | nil => rfl
  | cons a t ih => simp [List.replicate_succ, ih]

lemma heartbeatTick_st (st : WebSocketService) : (heartbeatTick st).st = st := by
  by_cases h : st.ws = some ReadyState.OPEN <;>
    simp [heartbeatTick, sendMessage, h]

lemma runTicks_eq (st : WebSocketService) : ∀ n, runTicks st n = st := by
  intro n
  induction n with
  | zero => rfl
  | succ n ih =>
    show runTicks (heartbeatTick st).st n = st
    rw [heartbeatTick_st]
    exact ih

/-! ## C4: reconnect backoff -/

/-- C4: for every reconnect attempt number `n` with `1 ≤ n ≤ maxAttempts`,
the delay scheduled before attempt `n` (invoking `handleReconnect` with the
counter at `n - 1`) equals `baseDelay * 2 ^ (n - 1)` and the counter becomes
`n`; once the counter has reached `maxAttempts`, `handleReconnect` schedules
no further attempt and emits the terminal `max_reconnect_attempts_reached`
event instead. -/
theorem C4_reconnect_backoff :
    (∀ (st : WebSocketService) (n : Nat), 1 ≤ n → n ≤ st.maxReconnectAttempts →
      st.reconnectAttempts = n - 1 →
      (handleReconnect st).scheduledDelay =
          some (st.reconnectInterval * 2 ^ (n - 1)) ∧
        (handleReconnect st).st.reconnectAttempts = n ∧
        (handleReconnect st).events = []) ∧
    (∀ st : WebSocketService, st.maxReconnectAttempts ≤ st.reconnectAttempts →
      (handleReconnect st).scheduledDelay = none ∧
        (handleReconnect st).st = st ∧
        (handleReconnect st).events = [WsEvent.max_reconnect_attempts_reached]) := by
  constructor
  · intro st n h1 h2 hatt
    have hlt : ¬ st.reconnectAttempts ≥ st.maxReconnectAttempts := by omega
    have hn : st.reconnectAttempts + 1 = n := by omega
    unfold handleReconnect
    rw [if_neg hlt]
    refine ⟨?_, ?_, rfl⟩
    · rw [Nat.add_sub_cancel, hatt]
    · exact hn
  · intro st h
    unfold handleReconnect
    rw [if_pos h]
    exact ⟨rfl, rfl, rfl⟩

/-- Witness for C4: with the source defaults (`baseDelay = 1000`,
`maxAttempts = 5`), attempt 3 is scheduled after 4000 ms, and with the
counter at 5 no attempt is scheduled. -/
theorem C4_reconnect_backoff_witness :
    (handleReconnect ⟨none, 2, 5, 1000, false, true, false⟩).scheduledDelay =
        some 4000 ∧
      (handleReconnect ⟨none, 5, 5, 1000, false, true, false⟩).scheduledDelay =
        none := by
  constructor
  · have h := (C4_reconnect_backoff.1 ⟨none, 2, 5, 1000, false, true, false⟩ 3
      (by decide) (by decide) (by decide)).1
    simpa using h
  · exact (C4_reconnect_backoff.2 ⟨none, 5, 5, 1000, false, true, false⟩
      (by decide)).1

/-! ## C6: unknown inbound frame types -/

/-- C6: for every inbound frame whose type is not in the recognized category
set (`notification`, `attendance_update`, `leave_update`, `shift_update`,
`payroll_update`, `system_message`, `pong`), dispatch logs a diagnostic, no
category subscriber is invoked, and the connection state is unchanged (the
channel stays open; the frame is additionally re-emitted on the catch-all
`message` event, which is not one of the recognized categories). -/
theorem C6_unknown_type_dropped (st : WebSocketService)
    (message : WebSocketMessage) (h : message.type ∉ recognizedTypes) :
    (handleMessage st message).1 = st ∧
      (handleMessage st message).2.events = [WsEvent.message message] ∧
      (∀ e ∈ (handleMessage st message).2.events, isCategoryEvent e = false) ∧
      (handleMessage st message).2.warnings = ["Unknown message type"] := by
  simp only [recognizedTypes, List.mem_cons, List.not_mem_nil, or_false,
    not_or] at h
  obtain ⟨h1, h2, h3, h4, h5, h6, h7⟩ := h
  simp only [handleMessage, if_neg h1, if_neg h2, if_neg h3, if_neg h4,
    if_neg h5, if_neg h6, if_neg h7]
  refine ⟨by trivial, by trivial, ?_, by trivial⟩
  intro e he
  simp only [List.mem_singleton] at he
  subst he
  rfl

/-- Witness for C6: a frame of the unrecognized type `"bogus"` received while
the channel is open. -/
theorem C6_unknown_type_dropped_witness :
    (handleMessage ⟨some ReadyState.OPEN, 0, 5, 1000, false, true, true⟩
        ⟨"bogus", "d"⟩).1 =
      ⟨some ReadyState.OPEN, 0, 5, 1000, false, true, true⟩ ∧
    (handleMessage ⟨some ReadyState.OPEN, 0, 5, 1000, false, true, true⟩
        ⟨"bogus", "d"⟩).2.warnings = ["Unknown message type"] := by
  have h := C6_unknown_type_dropped
    ⟨some ReadyState.OPEN, 0, 5, 1000, false, true, true⟩ ⟨"bogus", "d"⟩
    (by decide)
  exact ⟨h.1, h.2.2.2⟩

/-! ## C8: no overlapping connections -/

/-- C8: calling `connect()` while a connection attempt is in progress
(`isConnecting`) or while the channel is already `OPEN` returns without
effect: the state is unchanged, no new `WebSocket` is constructed, nothing is
scheduled, emitted or logged. -/
theorem C8_connect_no_overlap (st : WebSocketService) (token : Option String)
    (ctorFails : Bool)
    (h : st.isConnecting = true ∨ st.ws = some ReadyState.OPEN) :
    connect token ctorFails st = ⟨st, false, none, [], []⟩ := by
  unfold connect
  rw [if_pos h]

/-- Witness for C8: `connect` on an already-open channel, and on one whose
attempt is in progress, both return without effect. -/
theorem C8_connect_no_overlap_witness :
    connect (some "tok") false
        ⟨some ReadyState.OPEN, 0, 5, 1000, false, true, true⟩ =
      ⟨⟨some ReadyState.OPEN, 0, 5, 1000, false, true, true⟩,
        false, none, [], []⟩ ∧
    connect (some "tok") false ⟨none, 0, 5, 1000, true, true, false⟩ =
      ⟨⟨none, 0, 5, 1000, true, true, false⟩, false, none, [], []⟩ := by
  constructor
  · exact C8_connect_no_overlap
      ⟨some ReadyState.OPEN, 0, 5, 1000, false, true, true⟩ (some "tok") false
      (Or.inr rfl)
  · exact C8_connect_no_overlap ⟨none, 0, 5, 1000, true, true, false⟩
      (some "tok") false (Or.inl rfl)

/-! ## C9: connect without a stored token -/

/-- C9: calling `connect()` when no access token is stored (and no attempt is
in progress and the channel is not open) returns without error: no
`WebSocket` is constructed, no reconnect is scheduled, nothing is emitted, the
state is unchanged, and the only side effect is the diagnostic warning. -/
theorem C9_connect_without_token (st : WebSocketService) (ctorFails : Bool)
    (h1 : st.isConnecting = false) (h2 : st.ws ≠ some ReadyState.OPEN) :
    connect none ctorFails st =
      ⟨st, false, none, [],
        ["No auth token found, cannot connect to WebSocket"]⟩ := by
  unfold connect
  rw [if_neg (by simp [h1, h2])]
  obtain ⟨ws, ra, mra, ri, ic, sr, hb⟩ := st
  simp only at h1
  subst h1
  rfl

/-- Witness for C9: `connect` on the freshly constructed service with no
stored token. -/
theorem C9_connect_without_token_witness :
    connect none false initialService =
      ⟨initialService, false, none, [],
        ["No auth token found, cannot connect to WebSocket"]⟩ :=
  C9_connect_without_token initialService false rfl (by decide)

/-! ## C10: sendMessage while not open -/

/-- C10: `sendMessage(message)` called while the underlying connection is
absent or not in the `OPEN` state sends nothing, changes no state, and logs
the diagnostic warning (it never throws: the model is a total function and
the source path only calls `console.warn`). -/
theorem C10_sendMessage_not_open (st : WebSocketService)
    (message : WebSocketMessage)
    (h : st.ws = none ∨ ∀ r, st.ws = some r → r ≠ ReadyState.OPEN) :
    sendMessage st message =
      ⟨st, none, ["WebSocket is not connected, cannot send message"]⟩ := by
  unfold sendMessage
  rw [if_neg ?_]
  rcases h with h | h
  · rw [h]; simp
  · intro hopen
    exact h ReadyState.OPEN hopen rfl

/-- Witness for C10: sending on a service whose socket is absent. -/
theorem C10_sendMessage_not_open_witness :
    sendMessage initialService ⟨"ping", ""⟩ =
      ⟨initialService, none,
        ["WebSocket is not connected, cannot send message"]⟩ :=
  C10_sendMessage_not_open initialService ⟨"ping", ""⟩ (Or.inl rfl)

/-! ## C3: heartbeat and missed pongs -/

/-- An open channel with the heartbeat timer running (the state reached right
after `onopen` fired on the source defaults). -/
def openService : WebSocketService :=
  ⟨some ReadyState.OPEN, 0, 5, 1000, false, true, true⟩

/-- Counterexample to C3: four heartbeat intervals (120 s, well past the
claimed 2x-interval pong window) elapse on an open channel during which no
pong and no transport event arrives, yet the channel is still `OPEN`,
unchanged — no transition to `Disconnected` occurred and no reconnect was
scheduled (a tick's `SendResult` carries no state change and no schedule),
because the code keeps no pong bookkeeping at all: the `pong` case of
`handleMessage` is an empty no-op and the heartbeat callback only sends. -/
theorem C3_counterexample :
    runTicks openService 4 = openService ∧
      openService.ws = some ReadyState.OPEN ∧
      (heartbeatTick openService).st = openService ∧
      handleMessage openService ⟨"pong", ""⟩ = (openService, ⟨[], []⟩) := by
  refine ⟨runTicks_eq openService 4, rfl, heartbeatTick_st openService, ?_⟩
  rfl

/-- C3 as amended: while the channel is `OPEN` a ping frame is sent every
heartbeat interval, but pong responses are ignored (an empty switch case) and
the service records nothing about them, so a missed pong triggers no
transition and schedules no reconnect: after any number of silent heartbeat
intervals the state is exactly the same open state. -/
theorem C3_heartbeat_behavior (st : WebSocketService) (d : String)
    (h : st.ws = some ReadyState.OPEN) :
    (heartbeatTick st).sent = some ⟨"ping", ""⟩ ∧
      (heartbeatTick st).st = st ∧
      handleMessage st ⟨"pong", d⟩ = (st, ⟨[], []⟩) ∧
      (∀ n, runTicks st n = st) := by
  refine ⟨?_, heartbeatTick_st st, ?_, runTicks_eq st⟩
  · unfold heartbeatTick sendMessage
    rw [if_pos h, if_pos h]
  · rfl

/-- Witness for C3's amended statement, on the open channel with source
defaults. -/
theorem C3_heartbeat_behavior_witness :
    (heartbeatTick openService).sent = some ⟨"ping", ""⟩ ∧
      handleMessage openService ⟨"pong", "x"⟩ = (openService, ⟨[], []⟩) := by
  have h := C3_heartbeat_behavior openService "x" rfl
  exact ⟨h.1, h.2.2.1⟩

/-! ## C5: a throwing subscriber -/

/-- Counterexample to C5: a frame whose category has two subscribers, the
first of which throws.  Only one of the two callbacks is invoked — the
exception propagates out of `EventEmitter.emit` and the second subscriber
never receives the frame. -/
theorem C5_counterexample :
    (emitToListeners
        [CallbackBehavior.throws, CallbackBehavior.returns]).1 = 1 ∧
      (1 : Nat) ≠ 2 ∧
      (emitToListeners
        [CallbackBehavior.throws, CallbackBehavior.returns]).2 = true := by
  decide

/-- C5 as amended: a subscriber callback that throws stops delivery of that
frame to the subscribers registered after it for the same category (the
callbacks before it and the throwing one itself run, the rest do not), but it
does not corrupt delivery of the next frame: the exception is caught by the
`try`/`catch` in `ws.onmessage`, so every later frame is delivered exactly as
it would be on its own. -/
theorem C5_subscriber_throw_behavior (pre suff : List CallbackBehavior)
    (rest : List (List CallbackBehavior))
    (hpre : ∀ b ∈ pre, b = CallbackBehavior.returns) :
    deliverFrames ((pre ++ CallbackBehavior.throws :: suff) :: rest) =
      (pre.length + 1) :: deliverFrames rest := by
  have key : ∀ l : List CallbackBehavior,
      (∀ b ∈ l, b = CallbackBehavior.returns) →
      emitToListeners (l ++ CallbackBehavior.throws :: suff) =
        (l.length + 1, true) := by
    intro l
    induction l with
    | nil => intro _; rfl
    | cons b t ih =>
      intro hb
      have hb1 : b = CallbackBehavior.returns := hb b (List.mem_cons_self b t)
      subst hb1
      have ht := ih (fun x hx => hb x (List.mem_cons_of_mem _ hx))
      rw [List.cons_append]
      show ((emitToListeners (t ++ CallbackBehavior.throws :: suff)).1 + 1,
        (emitToListeners (t ++ CallbackBehavior.throws :: suff)).2) = _
      rw [ht]
      simp
  unfold deliverFrames
  rw [List.map_cons, key pre hpre]

/-- Witness for C5's amended statement: three subscribers of which the middle
one throws, followed by a second frame with one subscriber — the first frame
reaches 2 of its 3 subscribers, the second frame is delivered in full. -/
theorem C5_subscriber_throw_behavior_witness :
    deliverFrames
        [[CallbackBehavior.returns, CallbackBehavior.throws,
          CallbackBehavior.returns],
         [CallbackBehavior.returns]] = [2, 1] := by
  have h := C5_subscriber_throw_behavior [CallbackBehavior.returns]
    [CallbackBehavior.returns] [[CallbackBehavior.returns]]
    (by intro b hb; simpa using hb)
  simpa using h

/-! ## C1: single-flight refresh -/

lemma arrivalState_eq (m : Nat) : arrivalState (m + 1) = ⟨true, idsOf m⟩ := by
  unfold arrivalState
  rw [show (interceptError 401 false 0 ⟨false, []⟩).1 =
    (⟨true, []⟩ : ApiState) from rfl]
  rw [show m + 1 - 1 = m from rfl, enqueueAll_eq, List.nil_append]

lemma settleRefresh_success (storage : Storage) (rt tok : String)
    (ids : List Nat) (hrt : storage.refreshToken = some rt) :
    settleRefresh storage (RefreshResult.success tok) ⟨true, ids⟩ =
      ⟨⟨false, []⟩, { storage with authToken := some tok }, 1,
        ids.map (fun c => (c, CallerOutcome.retried)),
        CallerOutcome.retried, false⟩ := by
  unfold settleRefresh
  rw [hrt]
  rfl

lemma settleRefresh_failure (storage : Storage) (rt : String)
    (ids : List Nat) (hrt : storage.refreshToken = some rt) :
    settleRefresh storage RefreshResult.failure ⟨true, ids⟩ =
      ⟨⟨false, []⟩, ⟨none, none, none⟩, 1,
        ids.map (fun c => (c, CallerOutcome.rejectedRefreshError)),
        CallerOutcome.rejectedRefreshError, true⟩ := by
  unfold settleRefresh
  rw [hrt]
  rfl

lemma outcomes_map_eq (ids : List Nat) (o : CallerOutcome) :
    (ids.map fun c =>
        ((ids.map fun x => (x, o)).lookup c).getD CallerOutcome.pending) =
      List.replicate ids.length o := by
  have h1 : ∀ c ∈ ids,
      ((ids.map fun x => (x, o)).lookup c).getD CallerOutcome.pending = o := by
    intro c hc
    rw [lookup_map_const o ids c hc]
    rfl
  calc (ids.map fun c =>
          ((ids.map fun x => (x, o)).lookup c).getD CallerOutcome.pending)
      = ids.map (fun _ => o) := List.map_congr_left h1
    _ = List.replicate ids.length o := map_const_replicate o ids

/-- Counterexample to C1 as stated: two concurrent callers receive 401 while
no refresh is in flight, but the credential store holds no refresh token
(`refresh_token` absent).  The `if (refreshToken)` guard skips the refresh
entirely: zero calls are made to the refresh endpoint (not exactly one), the
initiating caller is rejected with the original 401 error, and the queued
caller's waiter is never settled — the two callers do not observe the same
post-refresh outcome. -/
theorem C1_counterexample :
    (refreshCycle ⟨some "t", none, none⟩ RefreshResult.failure 2).refreshCalls
        = 0 ∧
      (refreshCycle ⟨some "t", none, none⟩ RefreshResult.failure 2).refreshCalls
        ≠ 1 ∧
      (refreshCycle ⟨some "t", none, none⟩ RefreshResult.failure 2).outcomes =
        [CallerOutcome.rejectedOriginal, CallerOutcome.pending] := by
  decide

/-- C1 as amended: provided a refresh token is stored, for every `n ≥ 1`
concurrent callers receiving 401 while no refresh is in flight, exactly one
call is made to the refresh endpoint, and all `n` callers observe the same
post-refresh outcome: all are retried when the shared refresh succeeds, all
are rejected with the refresh error when it fails. -/
theorem C1_single_flight_with_refresh_token (storage : Storage) (rt : String)
    (res : RefreshResult) (n : Nat)
    (hrt : storage.refreshToken = some rt) (hn : 1 ≤ n) :
    (refreshCycle storage res n).refreshCalls = 1 ∧
      (∀ tok, res = RefreshResult.success tok →
        (refreshCycle storage res n).outcomes =
          List.replicate n CallerOutcome.retried) ∧
      (res = RefreshResult.failure →
        (refreshCycle storage res n).outcomes =
          List.replicate n CallerOutcome.rejectedRefreshError) := by
  obtain ⟨m, rfl⟩ : ∃ m, n = m + 1 := ⟨n - 1, by omega⟩
  have hlen : (idsOf m).length = m := by simp [idsOf]
  refine ⟨?_, ?_, ?_⟩
  · show (settleRefresh storage res (arrivalState (m + 1))).refreshCalls = 1
    rw [arrivalState_eq]
    cases res with
    | success tok => rw [settleRefresh_success storage rt tok (idsOf m) hrt]
    | failure => rw [settleRefresh_failure storage rt (idsOf m) hrt]
  · intro tok hres
    subst hres
    show (settleRefresh _ _ (arrivalState (m + 1))).initiatorOutcome ::
        (arrivalState (m + 1)).failedQueue.map (fun c =>
          ((settleRefresh _ _ (arrivalState (m + 1))).queueOutcomes.lookup
            c).getD CallerOutcome.pending) = _
    rw [arrivalState_eq, settleRefresh_success storage rt tok (idsOf m) hrt]
    show CallerOutcome.retried :: ((idsOf m).map fun c =>
        (((idsOf m).map fun x => (x, CallerOutcome.retried)).lookup c).getD
          CallerOutcome.pending) = _
    rw [outcomes_map_eq, hlen, List.replicate_succ]
  · intro hres
    subst hres
    show (settleRefresh _ _ (arrivalState (m + 1))).initiatorOutcome ::
        (arrivalState (m + 1)).failedQueue.map (fun c =>
          ((settleRefresh _ _ (arrivalState (m + 1))).queueOutcomes.lookup
            c).getD CallerOutcome.pending) = _
    rw [arrivalState_eq, settleRefresh_failure storage rt (idsOf m) hrt]
    show CallerOutcome.rejectedRefreshError :: ((idsOf m).map fun c =>
        (((idsOf m).map fun x =>
          (x, CallerOutcome.rejectedRefreshError)).lookup c).getD
          CallerOutcome.pending) = _
    rw [outcomes_map_eq, hlen, List.replicate_succ]

/-- Witness for C1's amended statement: three concurrent callers, a stored
refresh token, and a successful refresh — one refresh call, all three
retried. -/
theorem C1_single_flight_witness :
    (refreshCycle ⟨some "a", some "r", none⟩ (RefreshResult.success "b")
        3).refreshCalls = 1 ∧
      (refreshCycle ⟨some "a", some "r", none⟩ (RefreshResult.success "b")
        3).outcomes = List.replicate 3 CallerOutcome.retried := by
  have h := C1_single_flight_with_refresh_token ⟨some "a", some "r", none⟩ "r"
    (RefreshResult.success "b") 3 rfl (by omega)
  exact ⟨h.1, h.2.1 "b" rfl⟩

/-! ## C2: retried requests are never retried twice -/

/-- Counterexample to C2 as stated: a request that already carries the
`_retry` marker receives 401 again.  The interceptor's guard
`status === 401 && !originalRequest._retry` fails, so the handler falls
through to `Promise.reject(error)`: the request is rejected with the
original raw 401 error, not with a `SessionExpired` error (no such error
exists in the code). -/
theorem C2_counterexample :
    (interceptError 401 true 0 ⟨false, []⟩).2 =
        InterceptDecision.reject (PipelineError.httpError 401) ∧
      (interceptError 401 true 0 ⟨false, []⟩).2 ≠
        InterceptDecision.reject PipelineError.sessionExpired := by
  decide

/-- C2 as amended: for every request that has already been retried once and
receives 401 again, the interceptor rejects it with the original 401 error
(passing it through unchanged — the code defines no `SessionExpired` error)
and initiates no further refresh cycle: the coordinator state is unchanged
(nothing is enqueued, `isRefreshing` is not set) and the decision is neither
`enqueue` nor `startRefresh`, so each request is retried at most once. -/
theorem C2_retried_request_rejected_original (st : ApiState)
    (callerId : Nat) :
    interceptError 401 true callerId st =
        (st, InterceptDecision.reject (PipelineError.httpError 401)) ∧
      PipelineError.httpError 401 ≠ PipelineError.sessionExpired := by
  constructor
  · unfold interceptError
    rw [if_neg (by simp)]
  · decide

/-! ## C7: logout clears the credential store -/

/-- C7: `logout()` clears the credential store (access token, refresh token,
cached user) unconditionally — whether or not the best-effort remote logout
call fails — and atomically: provided the store does not already hold the
partial shape, no state observable during logout has the access token cleared
while the refresh token remains (the clearing is a single
`AsyncStorage.multiRemove` of all three keys). -/
theorem C7_logout_clears_unconditionally (st : Storage) (remote : RemoteCall)
    (h : st.authToken = none → st.refreshToken = none) :
    logout st remote = ⟨none, none, none⟩ ∧
      ∀ s ∈ logoutStates st remote,
        ¬(s.authToken = none ∧ s.refreshToken ≠ none) := by
  obtain ⟨a, r, u⟩ := st
  cases a with
  | none =>
    have hr : r = none := h rfl
    subst hr
    refine ⟨rfl, ?_⟩
    intro s hs
    simp only [logoutStates, logoutSteps, applyStep, List.scanl,
      Option.isSome_none, Bool.false_eq_true, if_false, List.nil_append,
      List.mem_cons, List.not_mem_nil, or_false] at hs
    rcases hs with hs | hs | hs <;> subst hs <;> simp [removeKey]
  | some t =>
    refine ⟨rfl, ?_⟩
    intro s hs
    simp only [logoutStates, logoutSteps, applyStep, List.scanl,
      Option.isSome_some, if_true, List.cons_append, List.nil_append,
      List.mem_cons, List.not_mem_nil, or_false] at hs
    rcases hs with hs | hs | hs | hs <;> subst hs <;> simp [removeKey]

/-- Witness for C7: a fully-populated store, remote logout call failing. -/
theorem C7_logout_witness :
    logout ⟨some "a", some "r", some "u"⟩ RemoteCall.fails =
      ⟨none, none, none⟩ :=
  (C7_logout_clears_unconditionally ⟨some "a", some "r", some "u"⟩
    RemoteCall.fails (by simp)).1

end EmployeeAttendance
